import Mathlib

/-!
Shallow embedding of the form-processing and object-mutation pipeline of
`pyramid_views/views/edit.py` (pyramid-views): form-class resolution,
form binding, object population (full and partial), persistence,
response branching and deletion.  External collaborators (the session,
the form library, the query provider) are modelled at their interface
boundary as described in the repository documentation.
-/

namespace PyramidViews

/-- Model class identity.  `name` is the class name; `new_abs_url` is the
canonical-URL capability a freshly instantiated object of this class
exposes (`none` when the class defines no `get_absolute_url`). -/
structure Model where
  name : String
  new_abs_url : Option String := none
deriving DecidableEq, Repr

/-- A persisted (or not-yet-persisted) target object: its class, its
attribute dictionary (`__dict__`, first binding wins on lookup), and the
result of its `get_absolute_url` method (`none` models the attribute
being absent, i.e. an `AttributeError` on access). -/
structure Obj where
  cls : Model
  attrs : List (String × String) := []
  abs_url : Option String := none
deriving DecidableEq, Repr

/-- Attribute lookup on the object's dictionary. -/
def Obj.getAttr (o : Obj) (k : String) : Option String :=
  o.attrs.lookup k

/-- Embedding of `setattr(obj, k, v)`: bind `k` to `v`, shadowing any earlier binding. -/
def Obj.setAttr (o : Obj) (k v : String) : Obj :=
  { o with attrs := (k, v) :: o.attrs }

/-- Embedding of `model()`: instantiate a fresh object of a model class with an empty
attribute dictionary. -/
def Model.instantiate (m : Model) : Obj :=
  { cls := m, attrs := [], abs_url := m.new_abs_url }

/-- A declared form field: its name, whether it is a `FileField`, and its
bound `data` value. -/
structure Field where
  name : String
  is_file : Bool := false
  data : String := ""
deriving DecidableEq, Repr

/-- Embedding of `field.populate_obj(obj, name)` (wtforms): set the attribute named
after the field to the field's bound data. -/
def Field.populate_obj (f : Field) (o : Obj) : Obj :=
  o.setAttr f.name f.data

/-- A bound form instance, modelled at the interface the views consume:
declared fields, the field-to-error-messages mapping, the result of
`validate()`, and the optional `post_populate` hook. -/
structure Form where
  fields : List Field := []
  errors : List (String × List String) := []
  valid : Bool := true
  post_populate : Option (Obj → Obj) := none

/-- Embedding of `form.populate_obj(obj)` (wtforms): copy every declared field onto
the object, in declaration order. -/
def Form.populate_obj (form : Form) (o : Obj) : Obj :=
  form.fields.foldl (fun acc f => f.populate_obj acc) o

/-- Modelled from the spec: the query provider (`get_query()` and
`pyramid_views.utils.get_model_from_obj`, whose source is not in scope)
is a query-like value from which a model/element type can be extracted. -/
structure Query where
  model : Model
deriving DecidableEq, Repr

/-- Modelled from the spec: `get_model_from_obj` extracts the element
model class from a query-like object. -/
def get_model_from_obj (q : Query) : Model :=
  q.model

/-- An explicitly configured form class: its name and the model its
`Meta.model` declares (`none` when the class has no such attribute). -/
structure FormCls where
  name : String
  meta_model : Option Model := none
deriving DecidableEq, Repr

/-- The result of form-class resolution: either the explicitly
configured class, or a class synthesized by the model-form factory from
a model plus the allowed-fields list (`Meta.only`). -/
inductive FormClassR where
  | explicitCls (fc : FormCls)
  | synthesized (m : Model) (only : Option (List String))
deriving DecidableEq, Repr

/-- Embedding of `Meta.model` of a resolved form class. -/
def FormClassR.meta_model : FormClassR → Option Model
  | .explicitCls fc => fc.meta_model
  | .synthesized m _ => some m

/-- The declarative view configuration (the relevant attributes of
`self`): explicit form class, explicit model, the resolved target object
(`has_object_attr` models `hasattr(self, 'object')`, `object` its value,
with `none` for Python `None`), the configured query, the allowed-fields
list, the success-URL template, the `endpoint`, `partial_updates` and
`always_update` settings, the keys of the raw submitted payload
(`request.POST`), the template name and the initial data. -/
structure ModelView where
  form_class : Option FormCls := none
  model : Option Model := none
  has_object_attr : Bool := false
  object : Option Obj := none
  query : Query := ⟨⟨"query-model", none⟩⟩
  fields : Option (List String) := none
  success_url : Option String := none
  endpoint : Bool := false
  partial_updates : Bool := false
  always_update : List String := []
  postKeys : List String := []
  template_name : Option String := none
  initial_data : List (String × String) := []
deriving DecidableEq, Repr

/-- Python truthiness of an optional string (`None` and `""` are falsy). -/
def truthyStr : Option String → Bool
  | none => false
  | some s => s != ""

/-- Python %-style mapping interpolation restricted to `%(key)s`
placeholders, resolved against an attribute dictionary; a missing key
renders as the empty string and malformed placeholders are emitted
literally.  `fuel` bounds the recursion by the length of the input. -/
def interpGo : Nat → List Char → List (String × String) → List Char
  | 0, _, _ => []
  | Nat.succ n, cs, attrs =>
    match cs with
    | [] => []
    | '%' :: '(' :: rest =>
      let key := String.mk (rest.takeWhile (fun c => c ≠ ')'))
      match rest.dropWhile (fun c => c ≠ ')') with
      | ')' :: 's' :: tail =>
        ((attrs.lookup key).getD "").data ++ interpGo n tail attrs
      | _ => '%' :: '(' :: interpGo n rest attrs
    | c :: rest => c :: interpGo n rest attrs

/-- Embedding of `template % obj.__dict__` for the `%(key)s` placeholders used by the
success-URL templates. -/
def interpolate (tpl : String) (attrs : List (String × String)) : String :=
  String.mk (interpGo (tpl.length + 1) tpl.data attrs)

namespace BaseUpdateView

/-- The partial-update filter of `BaseUpdateView.populate_obj`: a field
is populated when its name is in `always_update`, or it is present in
the raw POST payload and is not an empty file-upload field. -/
def shouldPopulate (v : ModelView) (f : Field) : Bool :=
  decide (f.name ∈ v.always_update) ||
    (decide (f.name ∈ v.postKeys) && !(f.is_file && f.data == ""))

/-- The partial-update loop of `BaseUpdateView.populate_obj`: fold over
the declared fields, copying exactly those passing the filter. -/
def populate_fields (v : ModelView) (fs : List Field) (o : Obj) : Obj :=
  fs.foldl (fun acc f => if shouldPopulate v f then f.populate_obj acc else acc) o

end BaseUpdateView

/-- Observable events emitted by the pipeline, in execution order:
object instantiation, per-field population, the `post_populate` hook,
`session.add`, `session.flush`, `session.delete`, and the computation of
the success destination. -/
inductive Ev where
  | instantiated (m : Model)
  | populated_field (name : String)
  | hook_called
  | added
  | flushed
  | deleted
  | url_computed
deriving DecidableEq, Repr

/-- Modelled from the spec: the injected request-scoped persistence
context (its source is an external collaborator), supporting
`add(object)`, `flush()` and `delete(object)`; `flush` makes generated
identifiers visible immediately.  `added_unflushed` holds objects
registered but not yet flushed, `store` the flushed ones, `removed` the
ones marked for deletion, and `next_id` the identifier generator. -/
structure Session where
  next_id : Nat := 1
  added_unflushed : List Obj := []
  store : List Obj := []
  removed : List Obj := []
deriving DecidableEq, Repr

/-- Embedding of `db_session.add(obj)`: register an object with the session. -/
def Session.add (s : Session) (o : Obj) : Session :=
  { s with added_unflushed := s.added_unflushed ++ [o] }

/-- Embedding of `db_session.flush()`: persist every pending object, assigning a
server-generated `id` attribute to each object that lacks one; returns
the new session together with the flushed objects (the mutated
identities of the pending ones, in registration order). -/
def Session.flushAll (s : Session) : Session × List Obj :=
  let res := s.added_unflushed.foldl
    (fun (p : Nat × List Obj) (o : Obj) =>
      match o.getAttr "id" with
      | some _ => (p.1, p.2 ++ [o])
      | none => (p.1 + 1, p.2 ++ [o.setAttr "id" (toString p.1)]))
    (s.next_id, ([] : List Obj))
  ({ s with next_id := res.1, added_unflushed := [],
            store := s.store ++ res.2 }, res.2)

/-- Embedding of `db_session.delete(obj)`: mark an object for deletion. -/
def Session.sdelete (s : Session) (o : Obj) : Session :=
  { s with removed := s.removed ++ [o] }

/-- Exceptions surfaced by the pipeline. -/
inductive Err where
  | improperlyConfigured (msg : String)
  | attributeError (msg : String)
deriving DecidableEq, Repr

/-- Keyword arguments a form is constructed with (`get_form_kwargs`):
initial data, `obj` (the pre-population source), `formdata` (the raw
submitted payload keys, present only for POST/PUT) and `instance`. -/
structure FormKwargs where
  data_init : List (String × String) := []
  obj : Option Obj := none
  formdata : Option (List String) := none
  instance_o : Option Obj := none
deriving DecidableEq, Repr

/-- The HTTP responses the pipeline produces: a 302 redirect, a plain
200 response with a body, a 400 response with a body, a 501
Not Implemented, and a template-rendered 200 response embedding a form. -/
inductive Response where
  | found (location : String)
  | plain (body : String)
  | badRequest (body : String)
  | notImplemented
  | rendered (form : Form)

/-- HTTP status code of each response shape. -/
def Response.status : Response → Nat
  | .found _ => 302
  | .plain _ => 200
  | .badRequest _ => 400
  | .notImplemented => 501
  | .rendered _ => 200

/-- JSON rendering of a string (the error messages contain no characters
needing escaping in the modelled scenarios). -/
def jsonStr (s : String) : String :=
  "\"" ++ s ++ "\""

/-- JSON rendering of a list of strings. -/
def jsonList (xs : List String) : String :=
  "[" ++ String.intercalate ", " (xs.map jsonStr) ++ "]"

/-- JSON encoding of the error payload, as `json.dumps` renders the
mapping holding the form errors under the single key `errors`. -/
def jsonErrors (errs : List (String × List String)) : String :=
  "\x7b\"errors\": \x7b" ++
    String.intercalate ", " (errs.map (fun p => jsonStr p.1 ++ ": " ++ jsonList p.2)) ++
    "\x7d\x7d"

/-- HTTP method of the incoming request. -/
inductive Method where
  | get
  | post
  | put
  | other
deriving DecidableEq, Repr

/-- Whether the method carries a submitted payload
(`request.method.upper() in ('POST', 'PUT')`). -/
def Method.isWrite : Method → Bool
  | .post => true
  | .put => true
  | _ => false

/-- The outcome of a mutating request: the final target object (if one
was obtained), the final session, the response (or the propagated
exception), and the emitted event trace. -/
structure FVResult where
  object : Option Obj
  session : Session
  response : Except Err Response
  trace : List Ev

namespace FormMixin

/-- Embedding of `FormMixin.get_success_url`: return the configured `success_url`, or
raise `ImproperlyConfigured`. -/
def get_success_url (su : Option String) : Except Err String :=
  if truthyStr su then Except.ok (su.getD "")
  else Except.error (Err.improperlyConfigured
    "No URL to redirect to. Provide a success_url.")

/-- Embedding of `FormMixin.get_form_kwargs`: initial data, prefix, `obj`
(`getattr(self, 'object', None)`), plus `formdata` for POST/PUT. -/
def get_form_kwargs (v : ModelView) (m : Method) : FormKwargs :=
  { data_init := v.initial_data,
    obj := if v.has_object_attr then v.object else none,
    formdata := if m.isWrite then some v.postKeys else none,
    instance_o := none }

/-- Embedding of `FormMixin.form_invalid`: re-render the form with its errors for
interactive views; for endpoint views return a 400 whose body is the
JSON-encoded error mapping. -/
def form_invalid (v : ModelView) (form : Form) : Response :=
  if !v.endpoint then Response.rendered form
  else Response.badRequest (jsonErrors form.errors)

/-- The try/except of `FormMixin.form_valid` and `DeletionMixin.delete`
around the success-URL computation: redirect on success; on
`ImproperlyConfigured`, return an empty 200 response for endpoint views
and re-raise otherwise. -/
def success_branch (endpoint : Bool) (urlr : Except Err String) : Except Err Response :=
  match urlr with
  | Except.ok url => Except.ok (Response.found url)
  | Except.error (Err.improperlyConfigured m) =>
    if endpoint then Except.ok (Response.plain "")
    else Except.error (Err.improperlyConfigured m)
  | Except.error e => Except.error e

end FormMixin

namespace ModelFormMixin

/-- Embedding of `ModelFormMixin.get_form_class`: the explicitly configured form
class if set; otherwise synthesize one from the model chosen by the
precedence explicit model, class of an already-resolved non-None target
object, model extracted from the configured query. -/
def get_form_class (v : ModelView) : FormClassR :=
  match v.form_class with
  | some fc => FormClassR.explicitCls fc
  | none =>
    let m : Model :=
      match v.model with
      | some m => m
      | none =>
        match v.has_object_attr, v.object with
        | true, some o => o.cls
        | _, _ => get_model_from_obj v.query
    FormClassR.synthesized m v.fields

/-- Embedding of `ModelFormMixin.get_form_kwargs`: the base kwargs plus `instance`
when the view has resolved an object attribute. -/
def get_form_kwargs (v : ModelView) (m : Method) : FormKwargs :=
  let kw := FormMixin.get_form_kwargs v m
  if v.has_object_attr then { kw with instance_o := v.object } else kw

/-- Embedding of `ModelFormMixin.get_success_url`: interpolate the configured
template against `self.object.__dict__`; else fall back to
`self.object.get_absolute_url()`, converting its `AttributeError` into
`ImproperlyConfigured`. -/
def get_success_url (su : Option String) (o : Obj) : Except Err String :=
  if truthyStr su then Except.ok (interpolate (su.getD "") o.attrs)
  else
    match o.abs_url with
    | some url => Except.ok url
    | none => Except.error (Err.improperlyConfigured
        "No URL to redirect to.  Either provide a url or define a get_absolute_url method on the Model.")

/-- Embedding of `ModelFormMixin.populate_obj`: copy every form field onto the
object (no hook is invoked here). -/
def populate_obj (form : Form) (o : Obj) : Obj :=
  Form.populate_obj form o

/-- Embedding of `ModelFormMixin.populate_obj` with its emitted event trace. -/
def populate_obj_traced (form : Form) (o : Obj) : Obj × List Ev :=
  (Form.populate_obj form o, form.fields.map (fun f => Ev.populated_field f.name))

/-- The model used when instantiating a fresh object in `form_valid`:
`self.model or self.get_form_class().Meta.model`. -/
def resolve_create_model (v : ModelView) : Option Model :=
  match v.model with
  | some m => some m
  | none => (get_form_class v).meta_model

end ModelFormMixin

namespace BaseUpdateView

/-- Embedding of `BaseUpdateView.populate_obj` with its emitted event trace: full
population when `partial_updates` is off, the filtered per-field loop
otherwise, then the optional `post_populate` hook. -/
def populate_obj_traced (v : ModelView) (form : Form) (o : Obj) : Obj × List Ev :=
  let base : Obj × List Ev :=
    if !v.partial_updates then
      (Form.populate_obj form o, form.fields.map (fun f => Ev.populated_field f.name))
    else
      (populate_fields v form.fields o,
       (form.fields.filter (fun f => shouldPopulate v f)).map
         (fun f => Ev.populated_field f.name))
  match form.post_populate with
  | some h => (h base.1, base.2 ++ [Ev.hook_called])
  | none => base

/-- Embedding of `BaseUpdateView.populate_obj` (the object it produces). -/
def populate_obj (v : ModelView) (form : Form) (o : Obj) : Obj :=
  (populate_obj_traced v form o).1

end BaseUpdateView

namespace ModelFormMixin

/-- The body of `ModelFormMixin.form_valid` once the target object is at
hand: populate it, `save()` (add then flush), then the inherited
success branching on `ModelFormMixin.get_success_url`. -/
def form_valid_body (pop : ModelView → Form → Obj → Obj × List Ev)
    (v : ModelView) (form : Form) (s : Session)
    (obj0 : Obj) (ev0 : List Ev) : FVResult :=
  let popped := pop v form obj0
  let s1 := Session.add s popped.1
  let flushed := Session.flushAll s1
  let obj2 := flushed.2.getLast?.getD popped.1
  { object := some obj2,
    session := flushed.1,
    response := FormMixin.success_branch v.endpoint (get_success_url v.success_url obj2),
    trace := ev0 ++ popped.2 ++ [Ev.added, Ev.flushed, Ev.url_computed] }

/-- Embedding of `ModelFormMixin.form_valid`, parameterized by the dispatched
`populate_obj` implementation: instantiate a fresh object of the
resolved model when `self.object is None`, populate, save, branch.
When the create model cannot be resolved the `Meta.model` attribute
access fails and the `AttributeError` propagates. -/
def form_valid (pop : ModelView → Form → Obj → Obj × List Ev)
    (v : ModelView) (form : Form) (s : Session) : FVResult :=
  match v.object with
  | some o => form_valid_body pop v form s o []
  | none =>
    match resolve_create_model v with
    | some m => form_valid_body pop v form s m.instantiate [Ev.instantiated m]
    | none =>
      { object := none, session := s,
        response := Except.error (Err.attributeError
          "type object has no attribute Meta.model"),
        trace := [] }

end ModelFormMixin

/-- Embedding of `BaseCreateView`'s validated-submission handling: `form_valid` with
the inherited `ModelFormMixin.populate_obj`. -/
def BaseCreateView.form_valid (v : ModelView) (form : Form) (s : Session) : FVResult :=
  ModelFormMixin.form_valid (fun _ f o => ModelFormMixin.populate_obj_traced f o) v form s

/-- Embedding of `BaseUpdateView`'s validated-submission handling: `form_valid` with
the overridden `BaseUpdateView.populate_obj`. -/
def BaseUpdateView.form_valid (v : ModelView) (form : Form) (s : Session) : FVResult :=
  ModelFormMixin.form_valid BaseUpdateView.populate_obj_traced v form s

namespace DeletionMixin

/-- Embedding of `DeletionMixin.get_success_url`: interpolate the configured template
against `self.object.__dict__`, or raise `ImproperlyConfigured`
(no canonical-URL fallback). -/
def get_success_url (su : Option String) (o : Obj) : Except Err String :=
  if truthyStr su then Except.ok (interpolate (su.getD "") o.attrs)
  else Except.error (Err.improperlyConfigured
    "No URL to redirect to. Provide a success_url.")

/-- Embedding of `DeletionMixin.delete`: fetch the object (passed in as the
resolver's result), delete it via the session, then branch on the
success URL exactly as `form_valid` does. -/
def delete (v : ModelView) (obj : Obj) (s : Session) : FVResult :=
  let s1 := Session.sdelete s obj
  { object := some obj,
    session := s1,
    response :=
      match get_success_url v.success_url obj with
      | Except.ok url => Except.ok (Response.found url)
      | Except.error (Err.improperlyConfigured m) =>
        if v.endpoint then Except.ok (Response.plain "")
        else Except.error (Err.improperlyConfigured m)
      | Except.error e => Except.error e,
    trace := [Ev.deleted, Ev.url_computed] }

/-- Embedding of `DeletionMixin.post`: POST is accepted as an alias for DELETE. -/
def post (v : ModelView) (obj : Obj) (s : Session) : FVResult :=
  delete v obj s

end DeletionMixin

namespace ProcessFormView

/-- Embedding of `ProcessFormView.get`: resolve the form class, bind it with the
GET-method kwargs (no `formdata`), and render the response embedding the
bound form.  `bind` is the external form constructor
(`form_class(**kwargs)`). -/
def get (bind : FormClassR → FormKwargs → Form) (v : ModelView) : Response :=
  Response.rendered
    (bind (ModelFormMixin.get_form_class v) (ModelFormMixin.get_form_kwargs v Method.get))

/-- Embedding of `ProcessFormView.post`: bind the form with the POST-method kwargs,
validate, and dispatch to `form_valid` or `form_invalid`. -/
def post (bind : FormClassR → FormKwargs → Form)
    (on_valid : Form → FVResult) (v : ModelView) (s : Session) : FVResult :=
  let form := bind (ModelFormMixin.get_form_class v) (ModelFormMixin.get_form_kwargs v Method.post)
  if form.valid then on_valid form
  else
    { object := v.object, session := s,
      response := Except.ok (FormMixin.form_invalid v form),
      trace := [] }

/-- Embedding of `ProcessFormView.put`: PUT is handled exactly as POST. -/
def put (bind : FormClassR → FormKwargs → Form)
    (on_valid : Form → FVResult) (v : ModelView) (s : Session) : FVResult :=
  post bind on_valid v s

end ProcessFormView

/-- Embedding of `FormMixin.get`: endpoint views without a configured template name
answer GET with 501 Not Implemented; otherwise defer to
`ProcessFormView.get`. -/
def FormMixin.get (bind : FormClassR → FormKwargs → Form) (v : ModelView) : Response :=
  if v.endpoint && !(truthyStr v.template_name) then Response.notImplemented
  else ProcessFormView.get bind v

/-! Helper lemmas about attribute updates and the population folds. -/

theorem getAttr_setAttr (o : Obj) (k v k' : String) :
    (o.setAttr k v).getAttr k' = if k' = k then some v else o.getAttr k' := by
  by_cases h : k' = k
  · simp [Obj.getAttr, Obj.setAttr, List.lookup, beq_iff_eq, h]
  · have hb : (k' == k) = false := beq_eq_false_iff_ne.mpr h
    simp [Obj.getAttr, Obj.setAttr, List.lookup, hb, h]

theorem populate_fields_getAttr_not_mem (v : ModelView) (nm : String) :
    ∀ (fs : List Field) (o : Obj), (∀ f ∈ fs, f.name ≠ nm) →
      (BaseUpdateView.populate_fields v fs o).getAttr nm = o.getAttr nm := by
  intro fs
  induction fs with
  | nil => intro o _; rfl
  | cons f fs ih =>
    intro o h
    have hf : f.name ≠ nm := h f (List.mem_cons_self f fs)
    have hrest : ∀ g ∈ fs, g.name ≠ nm := fun g hg => h g (List.mem_cons_of_mem f hg)
    have hstep : BaseUpdateView.populate_fields v (f :: fs) o =
        BaseUpdateView.populate_fields v fs
          (if BaseUpdateView.shouldPopulate v f then f.populate_obj o else o) := rfl
    rw [hstep, ih _ hrest]
    by_cases hsp : BaseUpdateView.shouldPopulate v f
    · simp [hsp, Field.populate_obj, getAttr_setAttr, Ne.symm hf]
    · simp [hsp]

theorem populate_fields_getAttr_mem (v : ModelView) :
    ∀ (fs : List Field) (o : Obj) (f : Field), f ∈ fs →
      (fs.map Field.name).Nodup →
      (BaseUpdateView.populate_fields v fs o).getAttr f.name =
        if BaseUpdateView.shouldPopulate v f then some f.data else o.getAttr f.name := by
  intro fs
  induction fs with
  | nil => intro o f hf _; exact absurd hf (List.not_mem_nil f)
  | cons g gs ih =>
    intro o f hf hnd
    rw [List.map_cons] at hnd
    have hnd' := List.nodup_cons.mp hnd
    have hstep : BaseUpdateView.populate_fields v (g :: gs) o =
        BaseUpdateView.populate_fields v gs
          (if BaseUpdateView.shouldPopulate v g then g.populate_obj o else o) := rfl
    rcases List.mem_cons.mp hf with hfg | hfgs
    · subst hfg
      have hrest : ∀ h' ∈ gs, h'.name ≠ f.name := by
        intro h' hh' heq
        exact hnd'.1 (heq ▸ List.mem_map_of_mem Field.name hh')
      rw [hstep, populate_fields_getAttr_not_mem v f.name gs _ hrest]
      by_cases hsp : BaseUpdateView.shouldPopulate v f
      · simp [hsp, Field.populate_obj, getAttr_setAttr]
      · simp [hsp]
    · have hgne : g.name ≠ f.name := by
        intro heq
        exact hnd'.1 (heq ▸ List.mem_map_of_mem Field.name hfgs)
      rw [hstep, ih _ f hfgs hnd'.2]
      by_cases hsp : BaseUpdateView.shouldPopulate v g
      · simp [hsp, Field.populate_obj, getAttr_setAttr, hgne, Ne.symm hgne]
      · simp [hsp]

theorem full_fold_getAttr_not_mem (nm : String) :
    ∀ (fs : List Field) (o : Obj), (∀ f ∈ fs, f.name ≠ nm) →
      (fs.foldl (fun acc f => f.populate_obj acc) o).getAttr nm = o.getAttr nm := by
  intro fs
  induction fs with
  | nil => intro o _; rfl
  | cons f fs ih =>
    intro o h
    have hf : f.name ≠ nm := h f (List.mem_cons_self f fs)
    have hrest : ∀ g ∈ fs, g.name ≠ nm := fun g hg => h g (List.mem_cons_of_mem f hg)
    have hstep : ((f :: fs).foldl (fun acc f => f.populate_obj acc) o) =
        fs.foldl (fun acc f => f.populate_obj acc) (f.populate_obj o) := rfl
    rw [hstep, ih _ hrest]
    simp [Field.populate_obj, getAttr_setAttr, Ne.symm hf]

theorem full_fold_getAttr_mem :
    ∀ (fs : List Field) (o : Obj) (f : Field), f ∈ fs →
      (fs.map Field.name).Nodup →
      (fs.foldl (fun acc f => f.populate_obj acc) o).getAttr f.name = some f.data := by
  intro fs
  induction fs with
  | nil => intro o f hf _; exact absurd hf (List.not_mem_nil f)
  | cons g gs ih =>
    intro o f hf hnd
    rw [List.map_cons] at hnd
    have hnd' := List.nodup_cons.mp hnd
    have hstep : ((g :: gs).foldl (fun acc f => f.populate_obj acc) o) =
        gs.foldl (fun acc f => f.populate_obj acc) (g.populate_obj o) := rfl
    rcases List.mem_cons.mp hf with hfg | hfgs
    · subst hfg
      have hrest : ∀ h' ∈ gs, h'.name ≠ f.name := by
        intro h' hh' heq
        exact hnd'.1 (heq ▸ List.mem_map_of_mem Field.name hh')
      rw [hstep, full_fold_getAttr_not_mem f.name gs _ hrest]
      simp [Field.populate_obj, getAttr_setAttr]
    · rw [hstep, ih _ f hfgs hnd'.2]

theorem shouldPopulate_iff (v : ModelView) (f : Field) :
    BaseUpdateView.shouldPopulate v f = true ↔
      (f.name ∈ v.always_update ∨
        (f.name ∈ v.postKeys ∧ ¬(f.is_file = true ∧ f.data = ""))) := by
  cases hif : f.is_file <;>
    simp [BaseUpdateView.shouldPopulate, hif, Bool.or_eq_true, Bool.and_eq_true,
      decide_eq_true_iff, beq_iff_eq]

/-- C1: with `partial_updates` enabled, `populate_obj` copies a declared
form field onto the target object if and only if the field name is in
`always_update`, or it is among the keys of the raw submitted payload
and the field is not a file field whose bound data is the empty string;
every attribute not named by such a field is left unchanged. -/
theorem partial_update_populates_iff (v : ModelView) (form : Form) (obj : Obj)
    (hp : v.partial_updates = true) (hh : form.post_populate = none)
    (hnd : (form.fields.map Field.name).Nodup) :
    (∀ f ∈ form.fields,
      (BaseUpdateView.populate_obj v form obj).getAttr f.name =
        if f.name ∈ v.always_update ∨
            (f.name ∈ v.postKeys ∧ ¬(f.is_file = true ∧ f.data = "")) then
          some f.data
        else obj.getAttr f.name) ∧
    (∀ nm : String, (∀ f ∈ form.fields, f.name ≠ nm) →
      (BaseUpdateView.populate_obj v form obj).getAttr nm = obj.getAttr nm) := by
  have hred : BaseUpdateView.populate_obj v form obj =
      BaseUpdateView.populate_fields v form.fields obj := by
    simp [BaseUpdateView.populate_obj, BaseUpdateView.populate_obj_traced, hp, hh]
  constructor
  · intro f hf
    rw [hred, populate_fields_getAttr_mem v form.fields obj f hf hnd]
    by_cases hc : f.name ∈ v.always_update ∨
        (f.name ∈ v.postKeys ∧ ¬(f.is_file = true ∧ f.data = ""))
    · rw [if_pos ((shouldPopulate_iff v f).mpr hc), if_pos hc]
    · have hns : ¬(BaseUpdateView.shouldPopulate v f = true) :=
        fun h => hc ((shouldPopulate_iff v f).mp h)
      rw [if_neg hns, if_neg hc]
  · intro nm hnm
    rw [hred]
    exact populate_fields_getAttr_not_mem v nm form.fields obj hnm

/-- A concrete partial-update scenario: the view config. -/
def exA_view : ModelView :=
  { partial_updates := true, always_update := ["slug"],
    postKeys := ["title", "photo"] }

/-- A concrete partial-update scenario: the bound form. -/
def exA_form : Form :=
  { fields := [⟨"title", false, "new"⟩, ⟨"photo", true, ""⟩,
               ⟨"body", false, "draft"⟩, ⟨"slug", false, "s"⟩] }

/-- A concrete partial-update scenario: the existing object. -/
def exA_obj : Obj :=
  ⟨⟨"Article", none⟩, [("title", "old"), ("photo", "p.png"), ("body", "kept")], none⟩

theorem partial_update_populates_iff_witness :
    (BaseUpdateView.populate_obj exA_view exA_form exA_obj).getAttr "title" = some "new" ∧
    (BaseUpdateView.populate_obj exA_view exA_form exA_obj).getAttr "photo" = some "p.png" ∧
    (BaseUpdateView.populate_obj exA_view exA_form exA_obj).getAttr "body" = some "kept" ∧
    (BaseUpdateView.populate_obj exA_view exA_form exA_obj).getAttr "slug" = some "s" := by
  have h := partial_update_populates_iff exA_view exA_form exA_obj rfl rfl (by decide)
  have h1 := h.1 ⟨"title", false, "new"⟩ (by decide)
  have h2 := h.1 ⟨"photo", true, ""⟩ (by decide)
  have h4 := h.1 ⟨"slug", false, "s"⟩ (by decide)
  rw [if_pos (by decide)] at h1
  rw [if_neg (by decide)] at h2
  rw [if_pos (by decide)] at h4
  have h3 := h.1 ⟨"body", false, "draft"⟩ (by decide)
  rw [if_neg (by decide)] at h3
  exact ⟨h1, h2.trans (by decide), h3.trans (by decide), h4⟩

/-- C8: with `partial_updates` disabled (the default), populating a
valid form copies every form-owned field onto the object, overwriting
prior values, independently of the raw submitted payload keys; this
holds for both `ModelFormMixin.populate_obj` and the full branch of
`BaseUpdateView.populate_obj`. -/
theorem full_populate_copies_all_fields (v : ModelView) (form : Form) (obj : Obj)
    (hp : v.partial_updates = false) (hh : form.post_populate = none)
    (hnd : (form.fields.map Field.name).Nodup) :
    (∀ f ∈ form.fields,
      (BaseUpdateView.populate_obj v form obj).getAttr f.name = some f.data) ∧
    (∀ f ∈ form.fields,
      (ModelFormMixin.populate_obj form obj).getAttr f.name = some f.data) ∧
    (∀ ks : List String,
      BaseUpdateView.populate_obj { v with postKeys := ks } form obj =
        BaseUpdateView.populate_obj v form obj) := by
  have hfold : ModelFormMixin.populate_obj form obj =
      form.fields.foldl (fun acc f => f.populate_obj acc) obj := rfl
  have hred : BaseUpdateView.populate_obj v form obj = ModelFormMixin.populate_obj form obj := by
    simp [BaseUpdateView.populate_obj, BaseUpdateView.populate_obj_traced, hp, hh,
      ModelFormMixin.populate_obj, Form.populate_obj]
  refine ⟨?_, ?_, ?_⟩
  · intro f hf
    rw [hred, hfold]
    exact full_fold_getAttr_mem form.fields obj f hf hnd
  · intro f hf
    rw [hfold]
    exact full_fold_getAttr_mem form.fields obj f hf hnd
  · intro ks
    have h2 : BaseUpdateView.populate_obj { v with postKeys := ks } form obj =
        ModelFormMixin.populate_obj form obj := by
      simp [BaseUpdateView.populate_obj, BaseUpdateView.populate_obj_traced, hp, hh,
        ModelFormMixin.populate_obj, Form.populate_obj]
    rw [h2, hred]

/-- A concrete full-update scenario: the view config (payload keys
intentionally omit every field). -/
def exB_view : ModelView :=
  { partial_updates := false, postKeys := [] }

/-- A concrete full-update scenario: the bound form. -/
def exB_form : Form :=
  { fields := [⟨"title", false, "new"⟩, ⟨"body", false, "text"⟩] }

/-- A concrete full-update scenario: the existing object. -/
def exB_obj : Obj :=
  ⟨⟨"Article", none⟩, [("title", "old"), ("body", "old-b")], none⟩

theorem full_populate_copies_all_fields_witness :
    (BaseUpdateView.populate_obj exB_view exB_form exB_obj).getAttr "title" = some "new" ∧
    (BaseUpdateView.populate_obj exB_view exB_form exB_obj).getAttr "body" = some "text" := by
  have h := full_populate_copies_all_fields exB_view exB_form exB_obj rfl rfl (by decide)
  exact ⟨h.1 ⟨"title", false, "new"⟩ (by decide), h.1 ⟨"body", false, "text"⟩ (by decide)⟩

/-- C3: form-class resolution returns the explicitly configured class
when one is set; otherwise it synthesizes a class from the model chosen
by the precedence explicit model, class of an already-resolved non-None
target object, model extracted from the configured query. -/
theorem get_form_class_resolution_order (v : ModelView) :
    (∀ fc, v.form_class = some fc →
      ModelFormMixin.get_form_class v = FormClassR.explicitCls fc) ∧
    (v.form_class = none → ∀ m, v.model = some m →
      ModelFormMixin.get_form_class v = FormClassR.synthesized m v.fields) ∧
    (v.form_class = none → v.model = none → v.has_object_attr = true →
      ∀ o, v.object = some o →
      ModelFormMixin.get_form_class v = FormClassR.synthesized o.cls v.fields) ∧
    (v.form_class = none → v.model = none →
      (v.has_object_attr = false ∨ v.object = none) →
      ModelFormMixin.get_form_class v =
        FormClassR.synthesized (get_model_from_obj v.query) v.fields) := by
  refine ⟨?_, ?_, ?_, ?_⟩
  · intro fc h
    simp [ModelFormMixin.get_form_class, h]
  · intro h m hm
    simp [ModelFormMixin.get_form_class, h, hm]
  · intro h hm hatt o hobj
    simp [ModelFormMixin.get_form_class, h, hm, hatt, hobj]
  · intro h hm ho
    rcases ho with ho | ho
    · simp [ModelFormMixin.get_form_class, h, hm, ho]
    · cases hatt : v.has_object_attr <;>
        simp [ModelFormMixin.get_form_class, h, hm, ho, hatt]

theorem get_form_class_resolution_order_witness :
    ModelFormMixin.get_form_class { model := some ⟨"Book", none⟩ } =
      FormClassR.synthesized ⟨"Book", none⟩ none :=
  (get_form_class_resolution_order { model := some ⟨"Book", none⟩ }).2.1
    rfl ⟨"Book", none⟩ rfl

/-- C4: a failed validation always yields a well-formed response and no
exception: non-endpoint views re-render the form carrying its errors
(a 200 response), endpoint views answer 400 with the JSON error object;
`ProcessFormView.post` returns exactly that response (never an error)
whenever the bound form fails to validate. -/
theorem form_invalid_response_shape (v : ModelView) (form : Form) :
    (v.endpoint = false →
      FormMixin.form_invalid v form = Response.rendered form ∧
      (FormMixin.form_invalid v form).status = 200) ∧
    (v.endpoint = true →
      FormMixin.form_invalid v form = Response.badRequest (jsonErrors form.errors) ∧
      (FormMixin.form_invalid v form).status = 400) ∧
    (∀ (bind : FormClassR → FormKwargs → Form) (on_valid : Form → FVResult) (s : Session),
      (bind (ModelFormMixin.get_form_class v)
          (ModelFormMixin.get_form_kwargs v Method.post)).valid = false →
      (ProcessFormView.post bind on_valid v s).response =
        Except.ok (FormMixin.form_invalid v
          (bind (ModelFormMixin.get_form_class v)
            (ModelFormMixin.get_form_kwargs v Method.post)))) := by
  refine ⟨?_, ?_, ?_⟩
  · intro h
    simp [FormMixin.form_invalid, h, Response.status]
  · intro h
    simp [FormMixin.form_invalid, h, Response.status]
  · intro bind on_valid s hv
    simp [ProcessFormView.post, hv]

theorem form_invalid_response_shape_witness :
    FormMixin.form_invalid { endpoint := true }
        { errors := [("name", ["This field is required."])], valid := false } =
      Response.badRequest
        "\x7b\"errors\": \x7b\"name\": [\"This field is required.\"]\x7d\x7d" := by
  have h := ((form_invalid_response_shape { endpoint := true }
    { errors := [("name", ["This field is required."])], valid := false }).2.1 rfl).1
  rw [h]
  rfl

/-- C5 counterexample: with no configured success URL and an object
exposing a canonical URL, the deletion success-URL computation raises
the configuration error while the create/update one returns the
canonical URL, so the two computations are not identical. -/
theorem delete_success_url_cex :
    DeletionMixin.get_success_url none ⟨⟨"Article", none⟩, [], some "/a/1"⟩ =
      Except.error (Err.improperlyConfigured
        "No URL to redirect to. Provide a success_url.") ∧
    ModelFormMixin.get_success_url none ⟨⟨"Article", none⟩, [], some "/a/1"⟩ =
      Except.ok "/a/1" ∧
    DeletionMixin.get_success_url none ⟨⟨"Article", none⟩, [], some "/a/1"⟩ ≠
      ModelFormMixin.get_success_url none ⟨⟨"Article", none⟩, [], some "/a/1"⟩ :=
  ⟨rfl, rfl, fun h => by
    simp [DeletionMixin.get_success_url, ModelFormMixin.get_success_url, truthyStr] at h⟩

/-- C5 (amended): after a deletion the success destination interpolates
a configured success-URL template against the object's attribute
mapping, agreeing with the create/update computation in that case; but
when no template is configured the deletion path raises the
configuration error directly, without attempting the canonical-URL
fallback. -/
theorem delete_success_url_behavior (su : Option String) (o : Obj) :
    (truthyStr su = true →
      DeletionMixin.get_success_url su o =
        Except.ok (interpolate (su.getD "") o.attrs) ∧
      DeletionMixin.get_success_url su o = ModelFormMixin.get_success_url su o) ∧
    (truthyStr su = false →
      DeletionMixin.get_success_url su o =
        Except.error (Err.improperlyConfigured
          "No URL to redirect to. Provide a success_url.")) := by
  constructor
  · intro h
    constructor <;>
      simp [DeletionMixin.get_success_url, ModelFormMixin.get_success_url, h]
  · intro h
    simp [DeletionMixin.get_success_url, h]

theorem delete_success_url_behavior_witness :
    DeletionMixin.get_success_url (some "/items/%(id)s")
        ⟨⟨"Item", none⟩, [("id", "7")], none⟩ =
      Except.ok "/items/7" := by
  have h := (delete_success_url_behavior (some "/items/%(id)s")
    ⟨⟨"Item", none⟩, [("id", "7")], none⟩).1 rfl
  rw [h.1]
  exact congrArg Except.ok (by decide)

theorem form_valid_body_resp (pop : ModelView → Form → Obj → Obj × List Ev)
    (v : ModelView) (form : Form) (s : Session) (obj0 : Obj) (ev0 : List Ev) (o2 : Obj)
    (h : (ModelFormMixin.form_valid_body pop v form s obj0 ev0).object = some o2) :
    (ModelFormMixin.form_valid_body pop v form s obj0 ev0).response =
      FormMixin.success_branch v.endpoint
        (ModelFormMixin.get_success_url v.success_url o2) := by
  simp only [ModelFormMixin.form_valid_body] at h ⊢
  injection h with h
  rw [h]

/-- C2: after a successfully validated create/update submission, and
after a deletion, when the success-URL computation raises the
configuration error the outcome depends only on the endpoint flag:
endpoint views answer with an empty-body 200 success response, while
non-endpoint views propagate the error. -/
theorem missing_success_url_endpoint_branching :
    (∀ (pop : ModelView → Form → Obj → Obj × List Ev) (v : ModelView) (form : Form)
        (s : Session) (o2 : Obj) (msg : String),
      (ModelFormMixin.form_valid pop v form s).object = some o2 →
      ModelFormMixin.get_success_url v.success_url o2 =
        Except.error (Err.improperlyConfigured msg) →
      (ModelFormMixin.form_valid pop v form s).response =
        if v.endpoint then Except.ok (Response.plain "")
        else Except.error (Err.improperlyConfigured msg)) ∧
    (∀ (v : ModelView) (obj : Obj) (s : Session) (msg : String),
      DeletionMixin.get_success_url v.success_url obj =
        Except.error (Err.improperlyConfigured msg) →
      (DeletionMixin.delete v obj s).response =
        if v.endpoint then Except.ok (Response.plain "")
        else Except.error (Err.improperlyConfigured msg)) ∧
    Response.status (Response.plain "") = 200 := by
  refine ⟨?_, ?_, rfl⟩
  · intro pop v form s o2 msg hobj hurl
    cases hvo : v.object with
    | some o =>
      have hfv : ModelFormMixin.form_valid pop v form s =
          ModelFormMixin.form_valid_body pop v form s o [] := by
        simp [ModelFormMixin.form_valid, hvo]
      rw [hfv] at hobj ⊢
      rw [form_valid_body_resp pop v form s o [] o2 hobj, hurl]
      rfl
    | none =>
      cases hm : ModelFormMixin.resolve_create_model v with
      | some m =>
        have hfv : ModelFormMixin.form_valid pop v form s =
            ModelFormMixin.form_valid_body pop v form s m.instantiate [Ev.instantiated m] := by
          simp [ModelFormMixin.form_valid, hvo, hm]
        rw [hfv] at hobj ⊢
        rw [form_valid_body_resp pop v form s m.instantiate [Ev.instantiated m] o2 hobj, hurl]
        rfl
      | none =>
        have hfv : (ModelFormMixin.form_valid pop v form s).object = none := by
          simp [ModelFormMixin.form_valid, hvo, hm]
        rw [hfv] at hobj
        exact absurd hobj (by simp)
  · intro v obj s msg hurl
    simp [DeletionMixin.delete, hurl]

theorem missing_success_url_endpoint_branching_witness :
    (DeletionMixin.delete { endpoint := true } ⟨⟨"A", none⟩, [], none⟩ {}).response =
      Except.ok (Response.plain "") := by
  have h := missing_success_url_endpoint_branching.2.1
    { endpoint := true } ⟨⟨"A", none⟩, [], none⟩ {}
    "No URL to redirect to. Provide a success_url." rfl
  simpa using h

/-- C9 counterexample: a GET on an endpoint view with no configured
template name is answered 501 Not Implemented, not a 200 rendered
form. -/
theorem get_endpoint_no_template_cex :
    FormMixin.get (fun _ _ => {}) { endpoint := true, template_name := none } =
      Response.notImplemented ∧
    Response.status
      (FormMixin.get (fun _ _ => {}) { endpoint := true, template_name := none }) ≠ 200 :=
  ⟨rfl, by decide⟩

/-- C9 (amended): a GET renders a 200 response embedding a form bound
with no submitted data (no `formdata`), except on an endpoint view with
no configured (truthy) template name, which is answered 501 Not
Implemented. -/
theorem get_request_rendering (bind : FormClassR → FormKwargs → Form) (v : ModelView) :
    (v.endpoint = true → truthyStr v.template_name = false →
      FormMixin.get bind v = Response.notImplemented ∧
      (FormMixin.get bind v).status = 501) ∧
    ((v.endpoint = false ∨ truthyStr v.template_name = true) →
      FormMixin.get bind v =
        Response.rendered (bind (ModelFormMixin.get_form_class v)
          (ModelFormMixin.get_form_kwargs v Method.get)) ∧
      (ModelFormMixin.get_form_kwargs v Method.get).formdata = none ∧
      (FormMixin.get bind v).status = 200) := by
  constructor
  · intro he ht
    simp [FormMixin.get, he, ht, Response.status]
  · intro h
    have hcond : (v.endpoint && !(truthyStr v.template_name)) = false := by
      rcases h with h | h <;> simp [h]
    have hfd : (ModelFormMixin.get_form_kwargs v Method.get).formdata = none := by
      cases hatt : v.has_object_attr <;>
        simp [ModelFormMixin.get_form_kwargs, FormMixin.get_form_kwargs,
          Method.isWrite, hatt]
    refine ⟨?_, hfd, ?_⟩ <;>
      simp [FormMixin.get, hcond, ProcessFormView.get, Response.status]

theorem get_request_rendering_witness :
    FormMixin.get (fun _ _ => {}) {} = Response.rendered {} ∧
    (ModelFormMixin.get_form_kwargs ({} : ModelView) Method.get).formdata = none := by
  have h := (get_request_rendering (fun _ _ => {}) {}).2 (Or.inl rfl)
  exact ⟨h.1, h.2.1⟩

theorem form_valid_body_persists (pop : ModelView → Form → Obj → Obj × List Ev)
    (v : ModelView) (form : Form) (s : Session) (obj0 : Obj) (ev0 : List Ev)
    (hpend : s.added_unflushed = []) :
    ∃ o2, (ModelFormMixin.form_valid_body pop v form s obj0 ev0).object = some o2 ∧
      o2 ∈ (ModelFormMixin.form_valid_body pop v form s obj0 ev0).session.store ∧
      (o2.getAttr "id").isSome = true ∧
      (ModelFormMixin.form_valid_body pop v form s obj0 ev0).session.added_unflushed = [] ∧
      (ModelFormMixin.form_valid_body pop v form s obj0 ev0).trace =
        ev0 ++ (pop v form obj0).2 ++ [Ev.added, Ev.flushed, Ev.url_computed] ∧
      (truthyStr v.success_url = true →
        (ModelFormMixin.form_valid_body pop v form s obj0 ev0).response =
          Except.ok (Response.found (interpolate (v.success_url.getD "") o2.attrs))) := by
  cases hid : (pop v form obj0).1.getAttr "id" with
  | none =>
    refine ⟨(pop v form obj0).1.setAttr "id" (toString s.next_id),
      ?_, ?_, ?_, ?_, ?_, ?_⟩ <;>
      simp [ModelFormMixin.form_valid_body, Session.add, Session.flushAll,
        hpend, hid, getAttr_setAttr]
    intro htr
    simp [ModelFormMixin.get_success_url, htr, FormMixin.success_branch]
  | some w =>
    refine ⟨(pop v form obj0).1, ?_, ?_, ?_, ?_, ?_, ?_⟩ <;>
      simp [ModelFormMixin.form_valid_body, Session.add, Session.flushAll,
        hpend, hid]
    intro htr
    simp [ModelFormMixin.get_success_url, htr, FormMixin.success_branch]

/-- C7: in a successfully validated create flow (no target object), a
fresh instance of the resolved model is instantiated before population;
after population the object is added to the session and flushed
immediately, before the success URL is computed, so by
success-URL interpolation time the object is in the persistence context
with a generated identifier available. -/
theorem create_flow_instantiate_persist_order
    (pop : ModelView → Form → Obj → Obj × List Ev)
    (v : ModelView) (form : Form) (s : Session) (m : Model)
    (hvo : v.object = none) (hm : ModelFormMixin.resolve_create_model v = some m)
    (hpend : s.added_unflushed = []) :
    (ModelFormMixin.form_valid pop v form s).trace =
      [Ev.instantiated m] ++ (pop v form m.instantiate).2 ++
        [Ev.added, Ev.flushed, Ev.url_computed] ∧
    (∃ o2, (ModelFormMixin.form_valid pop v form s).object = some o2 ∧
      o2 ∈ (ModelFormMixin.form_valid pop v form s).session.store ∧
      (o2.getAttr "id").isSome = true ∧
      (truthyStr v.success_url = true →
        (ModelFormMixin.form_valid pop v form s).response =
          Except.ok (Response.found (interpolate (v.success_url.getD "") o2.attrs)))) ∧
    (ModelFormMixin.form_valid pop v form s).session.added_unflushed = [] := by
  have hfv : ModelFormMixin.form_valid pop v form s =
      ModelFormMixin.form_valid_body pop v form s m.instantiate [Ev.instantiated m] := by
    simp [ModelFormMixin.form_valid, hvo, hm]
  obtain ⟨o2, h1, h2, h3, h4, h5, h6⟩ :=
    form_valid_body_persists pop v form s m.instantiate [Ev.instantiated m] hpend
  rw [hfv]
  exact ⟨h5, ⟨o2, h1, h2, h3, h6⟩, h4⟩

theorem create_flow_instantiate_persist_order_witness :
    (ModelFormMixin.form_valid (fun _ f o => ModelFormMixin.populate_obj_traced f o)
        { model := some ⟨"Item", none⟩, success_url := some "/items/%(id)s" }
        { fields := [⟨"name", false, "x"⟩] } {}).response =
      Except.ok (Response.found "/items/1") := by
  obtain ⟨-, ⟨o2, hobj, -, -, hresp⟩, -⟩ := create_flow_instantiate_persist_order
    (fun _ f o => ModelFormMixin.populate_obj_traced f o)
    { model := some ⟨"Item", none⟩, success_url := some "/items/%(id)s" }
    { fields := [⟨"name", false, "x"⟩] } {} ⟨"Item", none⟩ rfl rfl rfl
  have hc : (ModelFormMixin.form_valid (fun _ f o => ModelFormMixin.populate_obj_traced f o)
      { model := some ⟨"Item", none⟩, success_url := some "/items/%(id)s" }
      { fields := [⟨"name", false, "x"⟩] } {}).object =
      some (⟨⟨"Item", none⟩, [("id", "1"), ("name", "x")], none⟩ : Obj) := rfl
  rw [hc] at hobj
  injection hobj with hobj
  rw [hresp rfl, ← hobj]
  exact congrArg Except.ok (congrArg Response.found (by decide))

/-- C10 (implicit): session mutation precedes success-URL resolution:
a deletion marks the object deleted in the session, a valid update adds
and flushes the populated existing object, and a valid create
instantiates, populates, then adds and flushes the fresh object, in
every case before the success URL is computed; the mutation is present
in the returned session unconditionally, hence also when the
configuration error propagates. -/
theorem mutation_precedes_url_resolution :
    (∀ (v : ModelView) (obj : Obj) (s : Session),
      obj ∈ (DeletionMixin.delete v obj s).session.removed ∧
      (DeletionMixin.delete v obj s).session = Session.sdelete s obj ∧
      (DeletionMixin.delete v obj s).trace = [Ev.deleted, Ev.url_computed]) ∧
    (∀ (pop : ModelView → Form → Obj → Obj × List Ev) (v : ModelView) (form : Form)
        (s : Session) (o : Obj), v.object = some o → s.added_unflushed = [] →
      ∃ o2, (ModelFormMixin.form_valid pop v form s).object = some o2 ∧
        o2 ∈ (ModelFormMixin.form_valid pop v form s).session.store ∧
        (ModelFormMixin.form_valid pop v form s).trace =
          (pop v form o).2 ++ [Ev.added, Ev.flushed, Ev.url_computed]) ∧
    (∀ (pop : ModelView → Form → Obj → Obj × List Ev) (v : ModelView) (form : Form)
        (s : Session) (m : Model), v.object = none →
      ModelFormMixin.resolve_create_model v = some m → s.added_unflushed = [] →
      ∃ o2, (ModelFormMixin.form_valid pop v form s).object = some o2 ∧
        o2 ∈ (ModelFormMixin.form_valid pop v form s).session.store ∧
        (ModelFormMixin.form_valid pop v form s).trace =
          [Ev.instantiated m] ++ (pop v form m.instantiate).2 ++
            [Ev.added, Ev.flushed, Ev.url_computed]) := by
  refine ⟨?_, ?_, ?_⟩
  · intro v obj s
    refine ⟨?_, rfl, rfl⟩
    simp [DeletionMixin.delete, Session.sdelete]
  · intro pop v form s o hvo hpend
    have hfv : ModelFormMixin.form_valid pop v form s =
        ModelFormMixin.form_valid_body pop v form s o [] := by
      simp [ModelFormMixin.form_valid, hvo]
    obtain ⟨o2, h1, h2, h3, h4, h5, h6⟩ :=
      form_valid_body_persists pop v form s o [] hpend
    rw [hfv]
    exact ⟨o2, h1, h2, by simpa using h5⟩
  · intro pop v form s m hvo hm hpend
    have hfv : ModelFormMixin.form_valid pop v form s =
        ModelFormMixin.form_valid_body pop v form s m.instantiate [Ev.instantiated m] := by
      simp [ModelFormMixin.form_valid, hvo, hm]
    obtain ⟨o2, h1, h2, h3, h4, h5, h6⟩ :=
      form_valid_body_persists pop v form s m.instantiate [Ev.instantiated m] hpend
    rw [hfv]
    exact ⟨o2, h1, h2, h5⟩

theorem mutation_precedes_url_resolution_witness :
    (⟨⟨"A", none⟩, [], none⟩ : Obj) ∈
      (DeletionMixin.delete {} ⟨⟨"A", none⟩, [], none⟩ {}).session.removed ∧
    (⟨⟨"A", none⟩, [("id", "1")], none⟩ : Obj) ∈
      (ModelFormMixin.form_valid BaseUpdateView.populate_obj_traced
        { has_object_attr := true, object := some ⟨⟨"A", none⟩, [], none⟩ }
        { fields := [] } {}).session.store ∧
    (⟨⟨"B", none⟩, [("id", "1")], none⟩ : Obj) ∈
      (ModelFormMixin.form_valid (fun _ f o => ModelFormMixin.populate_obj_traced f o)
        { model := some ⟨"B", none⟩ } { fields := [] } {}).session.store := by
  refine ⟨(mutation_precedes_url_resolution.1 {} ⟨⟨"A", none⟩, [], none⟩ {}).1, ?_, ?_⟩
  · obtain ⟨o2, h1, h2, -⟩ := mutation_precedes_url_resolution.2.1
      BaseUpdateView.populate_obj_traced
      { has_object_attr := true, object := some ⟨⟨"A", none⟩, [], none⟩ }
      { fields := [] } {} ⟨⟨"A", none⟩, [], none⟩ rfl rfl
    have hc : (ModelFormMixin.form_valid BaseUpdateView.populate_obj_traced
        { has_object_attr := true, object := some ⟨⟨"A", none⟩, [], none⟩ }
        { fields := [] } {}).object =
        some (⟨⟨"A", none⟩, [("id", "1")], none⟩ : Obj) := rfl
    rw [hc] at h1
    injection h1 with h1
    rw [← h1] at h2
    exact h2
  · obtain ⟨o2, h1, h2, -⟩ := mutation_precedes_url_resolution.2.2
      (fun _ f o => ModelFormMixin.populate_obj_traced f o)
      { model := some ⟨"B", none⟩ } { fields := [] } {} ⟨"B", none⟩ rfl rfl rfl
    have hc : (ModelFormMixin.form_valid (fun _ f o => ModelFormMixin.populate_obj_traced f o)
        { model := some ⟨"B", none⟩ } { fields := [] } {}).object =
        some (⟨⟨"B", none⟩, [("id", "1")], none⟩ : Obj) := rfl
    rw [hc] at h1
    injection h1 with h1
    rw [← h1] at h2
    exact h2

theorem hook_not_mem_pop_events (l : List Field) :
    Ev.hook_called ∉ l.map (fun f => Ev.populated_field f.name) := by
  simp

theorem create_trace_no_hook (v2 : ModelView) (form2 : Form) (s2 : Session) :
    (BaseCreateView.form_valid v2 form2 s2).trace.count Ev.hook_called = 0 := by
  have hb : ∀ (obj0 : Obj) (ev0 : List Ev), ev0.count Ev.hook_called = 0 →
      (ModelFormMixin.form_valid_body (fun _ f o => ModelFormMixin.populate_obj_traced f o)
        v2 form2 s2 obj0 ev0).trace.count Ev.hook_called = 0 := by
    intro obj0 ev0 hev
    simp [ModelFormMixin.form_valid_body, ModelFormMixin.populate_obj_traced,
      List.count_append, hev, List.count_eq_zero.mpr (hook_not_mem_pop_events form2.fields)]
  cases hvo : v2.object with
  | some o =>
    have hfv : BaseCreateView.form_valid v2 form2 s2 =
        ModelFormMixin.form_valid_body (fun _ f o => ModelFormMixin.populate_obj_traced f o)
          v2 form2 s2 o [] := by
      simp [BaseCreateView.form_valid, ModelFormMixin.form_valid, hvo]
    rw [hfv]
    exact hb o [] rfl
  | none =>
    cases hm : ModelFormMixin.resolve_create_model v2 with
    | some m =>
      have hfv : BaseCreateView.form_valid v2 form2 s2 =
          ModelFormMixin.form_valid_body (fun _ f o => ModelFormMixin.populate_obj_traced f o)
            v2 form2 s2 m.instantiate [Ev.instantiated m] := by
        simp [BaseCreateView.form_valid, ModelFormMixin.form_valid, hvo, hm]
      rw [hfv]
      exact hb m.instantiate [Ev.instantiated m] rfl
    | none =>
      have hfv : (BaseCreateView.form_valid v2 form2 s2).trace = [] := by
        simp [BaseCreateView.form_valid, ModelFormMixin.form_valid, hvo, hm]
      rw [hfv]
      rfl

/-- C6 counterexample: a successfully validated create flow whose form
exposes a `post_populate` hook never invokes it, refuting the claim
that both create and update flows invoke the hook exactly once. -/
theorem create_flow_skips_post_populate_cex :
    (({ fields := [], valid := true, post_populate := some (fun o => o) } : Form)
        ).post_populate.isSome = true ∧
    (BaseCreateView.form_valid { model := some ⟨"Article", none⟩ }
        { fields := [], valid := true, post_populate := some (fun o => o) } {}).trace.count
      Ev.hook_called = 0 :=
  ⟨rfl, by decide⟩

theorem hook_trace_shape (base2 : List Ev) (hno : Ev.hook_called ∉ base2)
    (tr : List Ev)
    (htr : tr = base2 ++ [Ev.hook_called, Ev.added, Ev.flushed, Ev.url_computed]) :
    tr.count Ev.hook_called = 1 ∧
    ∃ pre, tr = pre ++ [Ev.hook_called, Ev.added, Ev.flushed, Ev.url_computed] ∧
      Ev.hook_called ∉ pre ∧
      ∀ nm, Ev.populated_field nm ∈ tr → Ev.populated_field nm ∈ pre := by
  subst htr
  refine ⟨?_, base2, rfl, hno, ?_⟩
  · rw [List.count_append, List.count_eq_zero.mpr hno]
    decide
  · intro nm hmem
    rcases List.mem_append.mp hmem with h | h
    · exact h
    · simp at h

/-- C6 (amended): in a successfully validated update flow on an
existing object, a form exposing the `post_populate` hook has it
invoked exactly once, after all field population; successfully
validated create flows never invoke the hook. -/
theorem post_populate_update_only (v : ModelView) (form : Form) (s : Session)
    (o : Obj) (hvo : v.object = some o) (hh : form.post_populate.isSome = true) :
    ((BaseUpdateView.form_valid v form s).trace.count Ev.hook_called = 1 ∧
      ∃ pre, (BaseUpdateView.form_valid v form s).trace =
          pre ++ [Ev.hook_called, Ev.added, Ev.flushed, Ev.url_computed] ∧
        Ev.hook_called ∉ pre ∧
        ∀ nm, Ev.populated_field nm ∈ (BaseUpdateView.form_valid v form s).trace →
          Ev.populated_field nm ∈ pre) ∧
    (∀ (v2 : ModelView) (form2 : Form) (s2 : Session),
      (BaseCreateView.form_valid v2 form2 s2).trace.count Ev.hook_called = 0) := by
  obtain ⟨hf, hsome⟩ : ∃ hf, form.post_populate = some hf :=
    Option.isSome_iff_exists.mp hh
  have hfv : BaseUpdateView.form_valid v form s =
      ModelFormMixin.form_valid_body BaseUpdateView.populate_obj_traced v form s o [] := by
    simp [BaseUpdateView.form_valid, ModelFormMixin.form_valid, hvo]
  refine ⟨?_, fun v2 form2 s2 => create_trace_no_hook v2 form2 s2⟩
  cases hc : v.partial_updates with
  | false =>
    have htr : (BaseUpdateView.form_valid v form s).trace =
        (form.fields.map (fun f => Ev.populated_field f.name)) ++
          [Ev.hook_called, Ev.added, Ev.flushed, Ev.url_computed] := by
      rw [hfv]
      simp [ModelFormMixin.form_valid_body, BaseUpdateView.populate_obj_traced, hsome, hc]
    exact hook_trace_shape _ (hook_not_mem_pop_events form.fields) _ htr
  | true =>
    have htr : (BaseUpdateView.form_valid v form s).trace =
        ((form.fields.filter (fun f => BaseUpdateView.shouldPopulate v f)).map
            (fun f => Ev.populated_field f.name)) ++
          [Ev.hook_called, Ev.added, Ev.flushed, Ev.url_computed] := by
      rw [hfv]
      simp [ModelFormMixin.form_valid_body, BaseUpdateView.populate_obj_traced, hsome, hc]
    exact hook_trace_shape _
      (hook_not_mem_pop_events (form.fields.filter (fun f => BaseUpdateView.shouldPopulate v f)))
      _ htr

theorem post_populate_update_only_witness :
    (BaseUpdateView.form_valid
        { has_object_attr := true, object := some ⟨⟨"A", none⟩, [], none⟩ }
        { fields := [⟨"title", false, "t"⟩], post_populate := some (fun o => o) }
        {}).trace.count Ev.hook_called = 1 :=
  (post_populate_update_only
    { has_object_attr := true, object := some ⟨⟨"A", none⟩, [], none⟩ }
    { fields := [⟨"title", false, "t"⟩], post_populate := some (fun o => o) }
    {} ⟨⟨"A", none⟩, [], none⟩ rfl rfl).1.1

end PyramidViews
